import Mathlib

/-!
Verification of the sales-analytics pipeline (sales_pipeline.py, export_tables.py).

The pipeline reads a flat transactions table, resolves messy column names to a
fixed logical schema, sanitizes rows, builds star-schema dimension and fact
tables, derives customer metrics (RFM scores) and monthly rollups, and writes
the results to a relational sink from which a separate script re-exports them.

This file is a shallow embedding of that code: cell values are modelled by an
inductive type of loosely-typed scalars, dataframes by lists of structures,
null by Option/Val.null, the date machinery of pandas by an explicit Gregorian
calendar, and operations that can raise (pd.date_range on NaT bounds,
pd.read_sql_query on a missing table) by Except.
-/

namespace Sales

/-- A calendar date (year, month, day); the model of a pandas Timestamp date. -/
structure Date where
  y : ℕ
  m : ℕ
  d : ℕ
deriving DecidableEq, Repr

/-- Gregorian leap-year rule, as used by the pandas calendar. -/
def isLeap (y : ℕ) : Bool :=
  (y % 4 == 0 && y % 100 != 0) || y % 400 == 0

/-- Number of days in a month of the Gregorian calendar. -/
def daysInMonth (y m : ℕ) : ℕ :=
  if m = 2 then (if isLeap y then 29 else 28)
  else if m = 4 ∨ m = 6 ∨ m = 9 ∨ m = 11 then 30
  else 31

/-- Days in the months of year y strictly before month m. -/
def daysBeforeMonth (y m : ℕ) : ℕ :=
  (List.range (m - 1)).foldl (fun acc i => acc + daysInMonth y (i + 1)) 0

/-- Leap years strictly before year y (y ≥ 1). -/
def leapsBefore (y : ℕ) : ℕ :=
  (y - 1) / 4 - (y - 1) / 100 + (y - 1) / 400

/-- Serial day number of a date: consecutive calendar days get consecutive
numbers. Used to model pandas date ordering, day differences and weekday. -/
def rataDie (dt : Date) : ℕ :=
  365 * (dt.y - 1) + leapsBefore dt.y + daysBeforeMonth dt.y dt.m + dt.d

/-- The next calendar day. -/
def nextDay (dt : Date) : Date :=
  if dt.d < daysInMonth dt.y dt.m then ⟨dt.y, dt.m, dt.d + 1⟩
  else if dt.m < 12 then ⟨dt.y, dt.m + 1, 1⟩
  else ⟨dt.y + 1, 1, 1⟩

/-- date.strftime to YYYYMMDD cast to int: the integer date key. -/
def toKey (dt : Date) : ℕ :=
  dt.y * 10000 + dt.m * 100 + dt.d

/-- pandas dt.dayofweek: Monday = 0, ..., Sunday = 6. -/
def dayOfWeek (dt : Date) : ℕ :=
  (rataDie dt + 6) % 7

/-- A loosely-typed spreadsheet cell, as produced by the opaque reader:
null (NaN/NaT), a string, a number, or a date value. -/
inductive Val where
  | null
  | str (s : String)
  | num (q : ℚ)
  | vdate (dt : Date)
deriving DecidableEq, Repr

/-- pd.to_datetime(col, errors=coerce) value-wise: date-typed cells pass
through, anything unparsable (here: any non-date cell) becomes NaT (none). -/
def to_datetime : Val → Option Date
  | .vdate dt => some dt
  | _ => none

/-- pd.to_numeric(col, errors=coerce) value-wise: numeric cells pass through,
anything unparsable becomes NaN (none). -/
def to_numeric : Val → Option ℚ
  | .num q => some q
  | _ => none

/-- str(c).strip(): drop whitespace from both ends (modelled on the
character list). -/
def stripChars (cs : List Char) : List Char :=
  ((cs.dropWhile Char.isWhitespace).reverse.dropWhile Char.isWhitespace).reverse

/-- normalize_cols, applied to one name: str(c).strip().lower() with spaces
and hyphens replaced by underscores (single-character replacements, modelled
as character maps). -/
def normalize_col (s : String) : String :=
  String.mk (((stripChars s.data).map Char.toLower).map
    (fun c => if c = ' ' then '_' else if c = '-' then '_' else c))

/-- normalize_cols over a header. -/
def normalize_cols (cols : List String) : List String :=
  cols.map normalize_col

/-- The ~19 logical fields of the pipeline's fixed schema. -/
inductive Logical where
  | order_id | order_date | ship_date | ship_mode | customer_id | customer_name
  | segment | country | city | state | region | postal_code
  | product_id | product_name | category | sub_category
  | sales | quantity | discount | profit
deriving DecidableEq, Repr

/-- The expected_candidates synonym table of the source, verbatim. -/
def expected_candidates : Logical → List String
  | .order_id => ["order_id", "order_id"]
  | .order_date => ["order_date", "orderdate", "order_date"]
  | .ship_date => ["ship_date", "shipdate"]
  | .ship_mode => ["ship_mode", "shipmode"]
  | .customer_id => ["customer_id", "customerid"]
  | .customer_name => ["customer_name", "customername", "customer"]
  | .segment => ["segment"]
  | .country => ["country"]
  | .city => ["city"]
  | .state => ["state"]
  | .region => ["region"]
  | .postal_code => ["postal_code", "postalcode", "zip", "zipcode"]
  | .product_id => ["product_id", "productid"]
  | .product_name => ["product_name", "productname", "product"]
  | .category => ["category"]
  | .sub_category => ["sub_category", "sub-category", "subcategory"]
  | .sales => ["sales", "sales_amount"]
  | .quantity => ["quantity", "qty"]
  | .discount => ["discount"]
  | .profit => ["profit"]

/-- Column map: logical field to actual (normalized) source column, or absent. -/
def ColMap : Type := Logical → Option String

/-- col_map construction: for each logical field, the first candidate present
in the (normalized) header wins; none if no candidate matches. -/
def col_map (cols : List String) : ColMap := fun logical =>
  (expected_candidates logical).find? (fun c => cols.contains c)

/-- A raw input row: a total valuation of (normalized) source column names.
Columns not in the source header are read as null. -/
def RawRow : Type := String → Val

/-- copy_col: when the column map resolved the logical field, copy the source
cell; otherwise the whole logical column is null. -/
def copy_col (cm : ColMap) (row : RawRow) (logical : Logical) : Val :=
  match cm logical with
  | some actual => row actual
  | none => .null

/-- A working row: exactly the logical fields, with order_date/ship_date
coerced to dates and sales/quantity/discount/profit coerced to numerics. -/
structure WorkRow where
  order_id : Val
  order_date : Option Date
  ship_date : Option Date
  ship_mode : Val
  customer_id : Val
  customer_name : Val
  segment : Val
  country : Val
  city : Val
  state : Val
  region : Val
  postal_code : Val
  product_id : Val
  product_name : Val
  category : Val
  sub_category : Val
  sales : Option ℚ
  quantity : Option ℚ
  discount : Option ℚ
  profit : Option ℚ
deriving DecidableEq, Repr

/-- One row of the work dataframe after the copy_col block and the
date/numeric coercions (source lines 103-133). -/
def mkWorkRow (cm : ColMap) (row : RawRow) : WorkRow where
  order_id := copy_col cm row .order_id
  order_date := to_datetime (copy_col cm row .order_date)
  ship_date := to_datetime (copy_col cm row .ship_date)
  ship_mode := copy_col cm row .ship_mode
  customer_id := copy_col cm row .customer_id
  customer_name := copy_col cm row .customer_name
  segment := copy_col cm row .segment
  country := copy_col cm row .country
  city := copy_col cm row .city
  state := copy_col cm row .state
  region := copy_col cm row .region
  postal_code := copy_col cm row .postal_code
  product_id := copy_col cm row .product_id
  product_name := copy_col cm row .product_name
  category := copy_col cm row .category
  sub_category := copy_col cm row .sub_category
  sales := to_numeric (copy_col cm row .sales)
  quantity := to_numeric (copy_col cm row .quantity)
  discount := to_numeric (copy_col cm row .discount)
  profit := to_numeric (copy_col cm row .profit)

/-- Nullness of a loosely-typed cell. -/
def isNull (v : Val) : Bool :=
  decide (v = .null)

/-- work.dropna(subset=[order_id, customer_id, product_id, order_date]):
a row survives iff all four critical keys are non-null. -/
def critical_keys_present (r : WorkRow) : Bool :=
  !(isNull r.order_id) && !(isNull r.customer_id) &&
    !(isNull r.product_id) && r.order_date.isSome

/-- work[work[quantity].fillna(0) > 0]: null quantity counts as 0. -/
def quantity_positive (r : WorkRow) : Bool :=
  decide (0 < r.quantity.getD 0)

/-- The Row Sanitizer: build working rows, then drop rows missing a critical
key, then drop rows without a strictly positive quantity — in that order
(source lines 135-142). -/
def sanitize (cm : ColMap) (rows : List RawRow) : List WorkRow :=
  ((rows.map (mkWorkRow cm)).filter critical_keys_present).filter quantity_positive

/-- Deduplication with explicit fuel (the fuel always suffices when it
bounds the list length; it makes the recursion structural). -/
def dropDupsAux {α : Type} [DecidableEq α] : ℕ → List α → List α
  | _, [] => []
  | 0, _ :: _ => []
  | n + 1, x :: xs => x :: dropDupsAux n (xs.filter (fun a => decide (a ≠ x)))

/-- drop_duplicates(): remove duplicates keeping the first occurrence. -/
def dropDups {α : Type} [DecidableEq α] (l : List α) : List α :=
  dropDupsAux l.length l

/-- The projection of a working row kept in the customer dimension. -/
structure CustRow where
  customer_id : Val
  customer_name : Val
  segment : Val
  country : Val
  city : Val
  state : Val
  region : Val
  postal_code : Val
deriving DecidableEq, Repr

/-- The customer-attribute projection of a working row. -/
def projCust (r : WorkRow) : CustRow where
  customer_id := r.customer_id
  customer_name := r.customer_name
  segment := r.segment
  country := r.country
  city := r.city
  state := r.state
  region := r.region
  postal_code := r.postal_code

/-- dim_customer: project the working rows to the customer attributes and
drop full-row duplicates (source lines 148-151). -/
def dim_customer (ws : List WorkRow) : List CustRow :=
  dropDups (ws.map projCust)

/-- The projection of a working row kept in the product dimension. -/
structure ProdRow where
  product_id : Val
  product_name : Val
  category : Val
  sub_category : Val
deriving DecidableEq, Repr

/-- The product-attribute projection of a working row. -/
def projProd (r : WorkRow) : ProdRow where
  product_id := r.product_id
  product_name := r.product_name
  category := r.category
  sub_category := r.sub_category

/-- dim_product: project and drop full-row duplicates (source lines 161-163). -/
def dim_product (ws : List WorkRow) : List ProdRow :=
  dropDups (ws.map projProd)

/-- English month abbreviation (strftime abbreviated-month code). -/
def monthName : ℕ → String
  | 1 => "Jan" | 2 => "Feb" | 3 => "Mar" | 4 => "Apr" | 5 => "May" | 6 => "Jun"
  | 7 => "Jul" | 8 => "Aug" | 9 => "Sep" | 10 => "Oct" | 11 => "Nov" | 12 => "Dec"
  | _ => ""

/-- Full weekday name from the pandas dayofweek number (Monday = 0). -/
def dayName : ℕ → String
  | 0 => "Monday" | 1 => "Tuesday" | 2 => "Wednesday" | 3 => "Thursday"
  | 4 => "Friday" | 5 => "Saturday" | 6 => "Sunday"
  | _ => ""

/-- One row of the date dimension. -/
structure DateRow where
  date : Date
  date_key : ℕ
  day : ℕ
  month : ℕ
  month_name : String
  year : ℕ
  quarter : ℕ
  day_of_week : ℕ
  day_name : String
  is_weekend : ℕ
deriving DecidableEq, Repr

/-- The derived calendar attributes of one generated day (source lines
170-178). -/
def mkDateRow (dt : Date) : DateRow where
  date := dt
  date_key := toKey dt
  day := dt.d
  month := dt.m
  month_name := monthName dt.m
  year := dt.y
  quarter := (dt.m - 1) / 3 + 1
  day_of_week := dayOfWeek dt
  day_name := dayName (dayOfWeek dt)
  is_weekend := if dayOfWeek dt = 5 ∨ dayOfWeek dt = 6 then 1 else 0

/-- n consecutive calendar days starting at s. -/
def datesFrom (s : Date) : ℕ → List Date
  | 0 => []
  | n + 1 => s :: datesFrom (nextDay s) n

/-- pd.date_range(start, end, freq=D): all calendar days from start to end
inclusive; raises ValueError when start or end is NaT (and this is exactly
what the source hits when the working row set is empty). -/
def date_range (startD endD : Option Date) : Except String (List Date) :=
  match startD, endD with
  | some s, some e =>
      if rataDie e < rataDie s then .ok []
      else .ok (datesFrom s (rataDie e - rataDie s + 1))
  | _, _ => .error "Neither start nor end can be NaT"

/-- Earliest of a non-empty collection of dates (fold with serial order). -/
def minDateFold (d0 : Date) (ds : List Date) : Date :=
  ds.foldl (fun a b => if rataDie b < rataDie a then b else a) d0

/-- Latest of a non-empty collection of dates (fold with serial order). -/
def maxDateFold (d0 : Date) (ds : List Date) : Date :=
  ds.foldl (fun a b => if rataDie a < rataDie b then b else a) d0

/-- work[order_date].min(): pandas min skips nulls and yields NaT exactly
when no non-null date exists. -/
def minOrderDate (ws : List WorkRow) : Option Date :=
  match ws.filterMap WorkRow.order_date with
  | [] => none
  | d :: ds => some (minDateFold d ds)

/-- work[order_date].max(), with the same null handling. -/
def maxOrderDate (ws : List WorkRow) : Option Date :=
  match ws.filterMap WorkRow.order_date with
  | [] => none
  | d :: ds => some (maxDateFold d ds)

/-- dim_date: a generated row per day of [min(order_date), max(order_date)]
(source lines 166-178). The Except models the ValueError pd.date_range raises
on NaT bounds. -/
def dim_date (ws : List WorkRow) : Except String (List DateRow) :=
  (date_range (minOrderDate ws) (maxOrderDate ws)).map (List.map mkDateRow)

/-- One row of the fact table (all defined fact columns). -/
structure FactRow where
  sales_id : ℕ
  order_id : Val
  order_date : Option Date
  order_date_key : Option ℕ
  ship_date : Option Date
  ship_mode : Val
  customer_id : Val
  product_id : Val
  country : Val
  city : Val
  state : Val
  region : Val
  quantity : Option ℚ
  sales_amount : Option ℚ
  gross_sales : ℚ
  discount : Option ℚ
  discount_pct : ℚ
  profit : Option ℚ
deriving DecidableEq, Repr

/-- gross_sales = sales_amount.fillna(0) + discount.fillna(0) (line 211). -/
def gross_sales_of (r : WorkRow) : ℚ :=
  r.sales.getD 0 + r.discount.getD 0

/-- discount_pct = np.where(gross_sales > 0, discount.fillna(0)/gross_sales, 0)
(lines 212-216); the division is only selected when the denominator is
positive. -/
def discount_pct_of (r : WorkRow) : ℚ :=
  if 0 < gross_sales_of r then r.discount.getD 0 / gross_sales_of r else 0

/-- One fact row built from one working row with surrogate key sid: the
renamed source fields (sales becomes sales_amount), the date key, and the
derived monetary fields. The stored discount keeps its null. -/
def mkFact (sid : ℕ) (r : WorkRow) : FactRow where
  sales_id := sid
  order_id := r.order_id
  order_date := r.order_date
  order_date_key := r.order_date.map toKey
  ship_date := r.ship_date
  ship_mode := r.ship_mode
  customer_id := r.customer_id
  product_id := r.product_id
  country := r.country
  city := r.city
  state := r.state
  region := r.region
  quantity := r.quantity
  sales_amount := r.sales
  gross_sales := gross_sales_of r
  discount := r.discount
  discount_pct := discount_pct_of r
  profit := r.profit

/-- Fact rows in working-row order with surrogate keys sid, sid+1, ... -/
def factAux (sid : ℕ) : List WorkRow → List FactRow
  | [] => []
  | r :: rs => mkFact sid r :: factAux (sid + 1) rs

/-- fact_sales: reset_index(drop=True) then sales_id = index + 1 — the
working rows in order, numbered from 1 (source lines 183-216). -/
def fact_sales (ws : List WorkRow) : List FactRow :=
  factAux 1 ws

/-- The 20 columns of the work dataframe. copy_col assigns the target column
in both of its branches (source value or NaN), so every logical column exists
regardless of the input header; this list is therefore constant. -/
def work_columns : List String :=
  ["order_id", "order_date", "ship_date", "ship_mode", "customer_id",
   "customer_name", "segment", "country", "city", "state", "region",
   "postal_code", "product_id", "product_name", "category", "sub_category",
   "sales", "quantity", "discount", "profit"]

/-- The rename applied to the fact frame: sales becomes sales_amount; every
other entry of the rename dict maps a name to itself (lines 189-204). -/
def rename_col (c : String) : String :=
  if c = "sales" then "sales_amount" else c

/-- The columns of the fact frame right before the keep-columns filter:
the work columns plus order_date_key (added before the rename), renamed,
plus the appended sales_id, gross_sales and discount_pct. -/
def fact_frame_columns : List String :=
  ((work_columns ++ ["order_date_key"]).map rename_col) ++
    ["sales_id", "gross_sales", "discount_pct"]

/-- keep_cols, verbatim from source lines 219-226. -/
def keep_cols : List String :=
  ["sales_id", "order_id", "order_date", "order_date_key",
   "ship_date", "ship_mode",
   "customer_id", "product_id",
   "country", "city", "state", "region",
   "quantity", "sales_amount", "gross_sales",
   "discount", "discount_pct", "profit"]

/-- keep_existing = [c for c in keep_cols if c in fact_sales.columns]
(lines 228-230). -/
def keep_existing : List String :=
  keep_cols.filter (fun c => fact_frame_columns.contains c)

/-- series.quantile(p) with the default linear interpolation, as numpy
computes it: on the sorted values s of length n, with h = p*(n-1),
the value s[floor h] + (h - floor h) * (s[floor h + 1] - s[floor h]). -/
def quantileLinear (l : List ℚ) (p : ℚ) : ℚ :=
  let s := List.insertionSort (fun a b : ℚ => a ≤ b) l
  match s with
  | [] => 0
  | _ :: _ =>
    let n := s.length
    let idx : ℚ := p * ((n : ℚ) - 1)
    let i : ℕ := (⌊idx⌋).toNat
    let lo := s.getD i 0
    let hi := s.getD (i + 1) lo
    lo + (idx - (i : ℚ)) * (hi - lo)

/-- score_from_quantiles (source lines 260-271): compute the 25th/50th/75th
linear-interpolated percentiles of the series, then map each value to
1 (at or below p25), 2 (at or below p50), 3 (at or below p75), else 4. -/
def score_from_quantiles (s : List ℚ) : List ℕ :=
  let q25 := quantileLinear s (1/4)
  let q50 := quantileLinear s (1/2)
  let q75 := quantileLinear s (3/4)
  s.map (fun x => if x ≤ q25 then 1 else if x ≤ q50 then 2 else if x ≤ q75 then 3 else 4)

/-- The R column: 5 minus the quartile score of days_since_last_order
(source lines 274-276). -/
def r_column (ds : List ℚ) : List ℤ :=
  (score_from_quantiles ds).map (fun v : ℕ => 5 - (v : ℤ))

/-- One row of customer_metrics before the RFM columns are appended. -/
structure CustomerMetricsRow where
  customer_id : Val
  total_revenue : ℚ
  total_profit : ℚ
  total_orders : ℕ
  total_quantity : ℚ
  first_order_date : Option Date
  last_order_date : Option Date
  days_since_last_order : Option ℤ
  avg_order_value : ℚ
deriving DecidableEq, Repr

/-- order_date.min() over fact rows (pandas skips nulls; NaT if none). -/
def minFactDate (fs : List FactRow) : Option Date :=
  match fs.filterMap FactRow.order_date with
  | [] => none
  | d :: ds => some (minDateFold d ds)

/-- order_date.max() over fact rows. -/
def maxFactDate (fs : List FactRow) : Option Date :=
  match fs.filterMap FactRow.order_date with
  | [] => none
  | d :: ds => some (maxDateFold d ds)

/-- The fact rows of one customer. -/
def custGroup (fs : List FactRow) (c : Val) : List FactRow :=
  fs.filter (fun f => decide (f.customer_id = c))

/-- customer_metrics (source lines 242-257): group the fact rows by
customer_id and aggregate. Grouping is modelled in first-occurrence key order;
no settled claim depends on the key order of this table. -/
def customer_metrics (fs : List FactRow) : List CustomerMetricsRow :=
  (dropDups (fs.map FactRow.customer_id)).map (fun c =>
    let g := custGroup fs c
    let rev : ℚ := (g.map (fun f => f.sales_amount.getD 0)).sum
    let orders : ℕ := (dropDups (g.map FactRow.order_id)).length
    let last := maxFactDate g
    { customer_id := c
      total_revenue := rev
      total_profit := (g.map (fun f => f.profit.getD 0)).sum
      total_orders := orders
      total_quantity := (g.map (fun f => f.quantity.getD 0)).sum
      first_order_date := minFactDate g
      last_order_date := last
      days_since_last_order :=
        match maxFactDate fs, last with
        | some gmax, some l => some ((rataDie gmax : ℤ) - (rataDie l : ℤ))
        | _, _ => none
      avg_order_value := if 0 < orders then rev / (orders : ℚ) else 0 })

/-- One row of monthly_sales. -/
structure MonthlyRow where
  year : ℕ
  month : ℕ
  monthly_revenue : ℚ
  monthly_profit : ℚ
  total_orders : ℕ
  cumulative_revenue : ℚ
deriving DecidableEq, Repr

/-- The (year, month) group key of a fact row; none for a null order_date
(pandas drops null group keys). -/
def monthKey (f : FactRow) : Option (ℕ × ℕ) :=
  f.order_date.map (fun dt => (dt.y, dt.m))

/-- Ascending order on (year, month) keys. -/
def monthLe (a b : ℕ × ℕ) : Prop :=
  a.1 < b.1 ∨ (a.1 = b.1 ∧ a.2 ≤ b.2)

instance : DecidableRel monthLe := fun a b =>
  inferInstanceAs (Decidable (a.1 < b.1 ∨ (a.1 = b.1 ∧ a.2 ≤ b.2)))

instance : IsTotal (ℕ × ℕ) monthLe where
  total a b := by
    rcases Nat.lt_trichotomy a.1 b.1 with h | h | h
    · exact Or.inl (Or.inl h)
    · rcases Nat.le_total a.2 b.2 with h2 | h2
      · exact Or.inl (Or.inr ⟨h, h2⟩)
      · exact Or.inr (Or.inr ⟨h.symm, h2⟩)
    · exact Or.inr (Or.inl h)

instance : IsTrans (ℕ × ℕ) monthLe where
  trans a b c hab hbc := by
    rcases hab with h1 | ⟨e1, l1⟩
    · rcases hbc with h2 | ⟨e2, _⟩
      · exact Or.inl (h1.trans h2)
      · exact Or.inl (e2 ▸ h1)
    · rcases hbc with h2 | ⟨e2, l2⟩
      · exact Or.inl (e1 ▸ h2)
      · exact Or.inr ⟨e1.trans e2, l1.trans l2⟩

/-- The fact rows of one (year, month) group. -/
def monthGroup (fs : List FactRow) (k : ℕ × ℕ) : List FactRow :=
  fs.filter (fun f => decide (monthKey f = some k))

/-- The distinct (year, month) keys, sorted ascending — the groupby keys
after sort_values([year, month]). -/
def monthly_keys (fs : List FactRow) : List (ℕ × ℕ) :=
  List.insertionSort monthLe (dropDups (fs.filterMap monthKey))

/-- sum(sales_amount) within one month group (pandas sum skips NaN). -/
def monthly_revenue_of (fs : List FactRow) (k : ℕ × ℕ) : ℚ :=
  ((monthGroup fs k).map (fun f => f.sales_amount.getD 0)).sum

/-- sum(profit) within one month group. -/
def monthly_profit_of (fs : List FactRow) (k : ℕ × ℕ) : ℚ :=
  ((monthGroup fs k).map (fun f => f.profit.getD 0)).sum

/-- nunique(order_id) within one month group. -/
def monthly_orders_of (fs : List FactRow) (k : ℕ × ℕ) : ℕ :=
  (dropDups ((monthGroup fs k).map FactRow.order_id)).length

/-- The sorted monthly rows with the running cumulative_revenue threaded
through (cumsum over the sorted order). -/
def monthlyGo (fs : List FactRow) (acc : ℚ) : List (ℕ × ℕ) → List MonthlyRow
  | [] => []
  | k :: ks =>
    let rev := monthly_revenue_of fs k
    { year := k.1
      month := k.2
      monthly_revenue := rev
      monthly_profit := monthly_profit_of fs k
      total_orders := monthly_orders_of fs k
      cumulative_revenue := acc + rev } :: monthlyGo fs (acc + rev) ks

/-- monthly_sales (source lines 285-295): group by (year, month) of
order_date, aggregate, sort ascending by (year, month), and add
cumulative_revenue as the running sum of monthly_revenue. -/
def monthly_sales (fs : List FactRow) : List MonthlyRow :=
  monthlyGo fs 0 (monthly_keys fs)

/-- The six table names the export script reads (export_tables.py). -/
def export_table_names : List String :=
  ["sa_fact_sales", "sa_dim_customer", "sa_dim_product",
   "sa_dim_date", "sa_customer_metrics", "sa_monthly_sales"]

/-- A relational database state: table name to rows, none when the table
does not exist. -/
def Database : Type := String → Option (List (List Val))

/-- pd.read_sql_query(SELECT * FROM t): the rows of t, or a raised error when
the table does not exist. -/
def read_sql_query (db : Database) (t : String) : Except String (List (List Val)) :=
  match db t with
  | some tb => .ok tb
  | none => .error ("no such table: " ++ t)

/-- The export loop body over a list of table names: read each table and
export it; an exception aborts the whole loop (there is no handler in the
source). -/
def exportGo (db : Database) : List String → Except String (List (String × List (List Val)))
  | [] => .ok []
  | t :: ts =>
    match read_sql_query db t with
    | .error e => .error e
    | .ok tb =>
      match exportGo db ts with
      | .error e => .error e
      | .ok rest => .ok ((t, tb) :: rest)

/-- The flat-file export consumer: read and export the six named tables in
order; the first missing table raises and aborts the run. -/
def export_tables (db : Database) : Except String (List (String × List (List Val))) :=
  exportGo db export_table_names

/-- The running sums of a numeric sequence, stated directly from the spec
wording: entry i is the sum of the first i+1 entries. Used to compare the
cumulative_revenue column against its specification. -/
def running_sums (l : List ℚ) : List ℚ :=
  (List.range l.length).map (fun i => ((l.take (i + 1)).sum))

/-! ### Concrete inputs used by witnesses and counterexamples -/

/-- An input header carrying every logical field, in snake_case. -/
def hdr_full : List String :=
  ["order_id", "order_date", "ship_date", "ship_mode", "customer_id",
   "customer_name", "segment", "country", "city", "state", "region",
   "postal_code", "product_id", "product_name", "category", "sub_category",
   "sales", "quantity", "discount", "profit"]

/-- hdr_full without any source column for profit. -/
def hdr_noProfit : List String :=
  hdr_full.filter (fun c => decide (c ≠ "profit"))

/-- hdr_full without any source column for order_date. -/
def hdr_noDate : List String :=
  hdr_full.filter (fun c => decide (c ≠ "order_date"))

/-- The column map the pipeline derives from hdr_full. -/
def cm_full : ColMap :=
  col_map (normalize_cols hdr_full)

/-- The column map derived from the header lacking profit. -/
def cm_noProfit : ColMap :=
  col_map (normalize_cols hdr_noProfit)

/-- The column map derived from the header lacking order_date. -/
def cm_noDate : ColMap :=
  col_map (normalize_cols hdr_noDate)

/-- A raw row built from an association list; columns not listed read null. -/
def mkRawRow (entries : List (String × Val)) : RawRow := fun s =>
  ((entries.find? (fun e => decide (e.1 = s))).map Prod.snd).getD .null

/-- The single-row scenario of the spec: order O1 by customer C1 for product
P1 on 2024-01-05, quantity 2, sales 100, discount 10, profit 20. -/
def raw1 : RawRow :=
  mkRawRow
    [("order_id", .str "O1"), ("order_date", .vdate ⟨2024, 1, 5⟩),
     ("customer_id", .str "C1"), ("product_id", .str "P1"),
     ("sales", .num 100), ("quantity", .num 2),
     ("discount", .num 10), ("profit", .num 20)]

/-- A fully sanitized working row used as a base for concrete tables. -/
def wBase : WorkRow where
  order_id := .str "O1"
  order_date := some ⟨2024, 1, 5⟩
  ship_date := none
  ship_mode := .null
  customer_id := .str "C1"
  customer_name := .str "Ann"
  segment := .null
  country := .null
  city := .str "Rome"
  state := .null
  region := .null
  postal_code := .null
  product_id := .str "P1"
  product_name := .null
  category := .null
  sub_category := .null
  sales := some 100
  quantity := some 2
  discount := some 10
  profit := some 20

/-- Same customer as wBase but a second order shipped from another city. -/
def wCity2 : WorkRow :=
  { wBase with order_id := .str "O2", city := .str "Pisa" }

/-- An order on 2024-01-30 (for the date-dimension evaluation). -/
def wJan30 : WorkRow :=
  { wBase with order_date := some ⟨2024, 1, 30⟩ }

/-- An order on 2024-02-02 (for the date-dimension evaluation). -/
def wFeb02 : WorkRow :=
  { wBase with order_id := .str "O2", order_date := some ⟨2024, 2, 2⟩ }

/-- A February order whose sales total is negative. -/
def wFebNeg : WorkRow :=
  { wBase with order_id := .str "O2", order_date := some ⟨2024, 2, 10⟩,
               sales := some (-50) }

/-- A fact table whose February month has negative revenue. -/
def exFactsC6 : List FactRow :=
  fact_sales [wBase, wFebNeg]

/-- A database holding five of the six exported tables; sa_monthly_sales is
missing, exactly the state the sink writer leaves when monthly_sales is empty
and its write is skipped. -/
def dbMissingMonthly : Database := fun t =>
  if t = "sa_monthly_sales" then none
  else if export_table_names.contains t then some [] else none

/-! ### Helper lemmas -/

theorem mem_factAux {k : ℕ} {ws : List WorkRow} {f : FactRow}
    (hf : f ∈ factAux k ws) : ∃ r ∈ ws, ∃ j, f = mkFact j r := by
  induction ws generalizing k with
  | nil => simp [factAux] at hf
  | cons r rs ih =>
    simp only [factAux, List.mem_cons] at hf
    rcases hf with h | h
    · exact ⟨r, List.mem_cons_self r rs, k, h⟩
    · obtain ⟨s, hs, j, hj⟩ := ih h
      exact ⟨s, List.mem_cons_of_mem r hs, j, hj⟩

theorem mem_sanitize {cm : ColMap} {rows : List RawRow} {r : WorkRow}
    (hr : r ∈ sanitize cm rows) : ∃ raw ∈ rows, r = mkWorkRow cm raw := by
  unfold sanitize at hr
  obtain ⟨hr1, _⟩ := List.mem_filter.mp hr
  obtain ⟨hr2, _⟩ := List.mem_filter.mp hr1
  obtain ⟨raw, hraw, heq⟩ := List.mem_map.mp hr2
  exact ⟨raw, hraw, heq.symm⟩

theorem factAux_length (k : ℕ) (ws : List WorkRow) :
    (factAux k ws).length = ws.length := by
  induction ws generalizing k with
  | nil => rfl
  | cons r rs ih => simp [factAux, ih]

theorem factAux_map_sid (k : ℕ) (ws : List WorkRow) :
    (factAux k ws).map FactRow.sales_id = List.range' k ws.length := by
  induction ws generalizing k with
  | nil => rfl
  | cons r rs ih => simp [factAux, List.range'_succ, ih, mkFact]

theorem factAux_get? (k i : ℕ) (ws : List WorkRow) :
    (factAux k ws).get? i = (ws.get? i).map (fun r => mkFact (k + i) r) := by
  induction ws generalizing k i with
  | nil => simp [factAux]
  | cons r rs ih =>
    cases i with
    | zero => simp [factAux]
    | succ n =>
      simp only [factAux, List.get?_cons_succ]
      rw [ih (k + 1) n]
      have h : k + 1 + n = k + (n + 1) := by omega
      rw [h]

theorem mem_dropDupsAux {α : Type} [DecidableEq α] :
    ∀ (n : ℕ) (l : List α), l.length ≤ n → ∀ a, (a ∈ dropDupsAux n l ↔ a ∈ l) := by
  intro n
  induction n with
  | zero =>
    intro l hl a
    have : l = [] := List.length_eq_zero.mp (Nat.le_zero.mp hl)
    subst this; simp [dropDupsAux]
  | succ n ih =>
    intro l hl a
    match l with
    | [] => simp [dropDupsAux]
    | x :: xs =>
      simp only [dropDupsAux, List.mem_cons]
      have hlen : (xs.filter (fun b => decide (b ≠ x))).length ≤ n :=
        le_trans (List.length_filter_le _ _) (by simpa using hl)
      rw [ih _ hlen a]
      constructor
      · rintro (h | h)
        · exact Or.inl h
        · exact Or.inr (List.mem_of_mem_filter h)
      · rintro (h | h)
        · exact Or.inl h
        · by_cases hax : a = x
          · exact Or.inl hax
          · exact Or.inr (List.mem_filter.mpr ⟨h, by simpa using hax⟩)

theorem mem_dropDups {α : Type} [DecidableEq α] (l : List α) (a : α) :
    a ∈ dropDups l ↔ a ∈ l :=
  mem_dropDupsAux l.length l (Nat.le_refl _) a

theorem nodup_dropDupsAux {α : Type} [DecidableEq α] :
    ∀ (n : ℕ) (l : List α), l.length ≤ n → (dropDupsAux n l).Nodup := by
  intro n
  induction n with
  | zero =>
    intro l hl
    have : l = [] := List.length_eq_zero.mp (Nat.le_zero.mp hl)
    subst this; simp [dropDupsAux]
  | succ n ih =>
    intro l hl
    match l with
    | [] => simp [dropDupsAux]
    | x :: xs =>
      simp only [dropDupsAux]
      have hlen : (xs.filter (fun b => decide (b ≠ x))).length ≤ n :=
        le_trans (List.length_filter_le _ _) (by simpa using hl)
      refine List.Nodup.cons ?_ (ih _ hlen)
      intro hx
      have hmem := (mem_dropDupsAux n _ hlen x).mp hx
      have := List.of_mem_filter hmem
      simp at this

theorem nodup_dropDups {α : Type} [DecidableEq α] (l : List α) :
    (dropDups l).Nodup :=
  nodup_dropDupsAux l.length l (Nat.le_refl _)

theorem toFinset_dropDups {α : Type} [DecidableEq α] (l : List α) :
    (dropDups l).toFinset = l.toFinset := by
  ext a
  simp [List.mem_toFinset, mem_dropDups]

/-! ### Claims -/

/-- C1: every row of the Sanitizer's output has non-null order_id,
customer_id, product_id and order_date, and a present, strictly positive
quantity (the quantity filter treats null as 0, so surviving rows carry an
actual positive value). The two filters are applied in order by the
definition of sanitize: critical-key drop first, then quantity positivity. -/
theorem sanitizer_invariant (cm : ColMap) (rows : List RawRow) (r : WorkRow)
    (hr : r ∈ sanitize cm rows) :
    r.order_id ≠ Val.null ∧ r.customer_id ≠ Val.null ∧ r.product_id ≠ Val.null ∧
    r.order_date.isSome = true ∧ ∃ q, r.quantity = some q ∧ 0 < q := by
  unfold sanitize at hr
  obtain ⟨hr1, hq⟩ := List.mem_filter.mp hr
  obtain ⟨_, hc⟩ := List.mem_filter.mp hr1
  simp only [critical_keys_present, isNull, Bool.and_eq_true, Bool.not_eq_true',
    decide_eq_false_iff_not] at hc
  obtain ⟨⟨⟨h1, h2⟩, h3⟩, h4⟩ := hc
  simp only [quantity_positive, decide_eq_true_eq] at hq
  refine ⟨h1, h2, h3, h4, ?_⟩
  cases hq2 : r.quantity with
  | none => rw [hq2] at hq; simp at hq
  | some q => exact ⟨q, rfl, by rw [hq2] at hq; simpa using hq⟩

/-- Witness for C1 at the spec's single-row scenario. -/
theorem sanitizer_invariant_witness :
    (mkWorkRow cm_full raw1).order_id ≠ Val.null ∧
    (mkWorkRow cm_full raw1).customer_id ≠ Val.null ∧
    (mkWorkRow cm_full raw1).product_id ≠ Val.null ∧
    (mkWorkRow cm_full raw1).order_date.isSome = true ∧
    ∃ q, (mkWorkRow cm_full raw1).quantity = some q ∧ 0 < q :=
  sanitizer_invariant cm_full [raw1] (mkWorkRow cm_full raw1) (by decide)

/-- C2: every fact row satisfies gross_sales = sales_amount + discount with
nulls read as 0, discount_pct = discount / gross_sales guarded by
gross_sales > 0 and 0 otherwise (so the division is never taken with a zero
denominator), while the stored sales_amount and discount columns keep the
source values, nulls included. -/
theorem fact_derived_fields (ws : List WorkRow) (f : FactRow)
    (hf : f ∈ fact_sales ws) :
    f.gross_sales = f.sales_amount.getD 0 + f.discount.getD 0 ∧
    f.discount_pct =
      (if 0 < f.gross_sales then f.discount.getD 0 / f.gross_sales else 0) ∧
    (0 < f.gross_sales ∨ f.discount_pct = 0) ∧
    ∃ r ∈ ws, f.sales_amount = r.sales ∧ f.discount = r.discount := by
  obtain ⟨r, hr, j, hj⟩ := mem_factAux hf
  subst hj
  refine ⟨rfl, ?_, ?_, ⟨r, hr, rfl, rfl⟩⟩
  · simp only [mkFact, discount_pct_of, gross_sales_of]
  · by_cases h : 0 < gross_sales_of r
    · exact Or.inl h
    · exact Or.inr (by simp only [mkFact, discount_pct_of, if_neg h])

/-- Witness for C2 at the one-row fact table over wBase. -/
theorem fact_derived_fields_witness :
    (mkFact 1 wBase ∈ fact_sales [wBase]) ∧
    ((mkFact 1 wBase).gross_sales =
      (mkFact 1 wBase).sales_amount.getD 0 + (mkFact 1 wBase).discount.getD 0 ∧
    (mkFact 1 wBase).discount_pct =
      (if 0 < (mkFact 1 wBase).gross_sales then
        (mkFact 1 wBase).discount.getD 0 / (mkFact 1 wBase).gross_sales else 0) ∧
    (0 < (mkFact 1 wBase).gross_sales ∨ (mkFact 1 wBase).discount_pct = 0) ∧
    ∃ r ∈ [wBase], (mkFact 1 wBase).sales_amount = r.sales ∧
      (mkFact 1 wBase).discount = r.discount) :=
  ⟨by simp [fact_sales, factAux],
   fact_derived_fields [wBase] (mkFact 1 wBase) (by simp [fact_sales, factAux])⟩

/-- C3: the fact builder numbers the working rows 1..N in their sanitized
order: the sales_id column is exactly the range 1..N (hence unique), and the
row at position i is built, unchanged and unsorted, from working row i with
sales_id i+1. -/
theorem fact_sales_id_sequential (ws : List WorkRow) :
    (fact_sales ws).length = ws.length ∧
    (fact_sales ws).map FactRow.sales_id = List.range' 1 ws.length ∧
    ((fact_sales ws).map FactRow.sales_id).Nodup ∧
    ∀ i : ℕ, (fact_sales ws).get? i = (ws.get? i).map (fun r => mkFact (i + 1) r) := by
  refine ⟨factAux_length 1 ws, factAux_map_sid 1 ws, ?_, ?_⟩
  · unfold fact_sales
    rw [factAux_map_sid 1 ws]
    exact List.nodup_range' 1 ws.length
  · intro i
    unfold fact_sales
    rw [factAux_get? 1 i ws]
    simp [Nat.add_comm]

/-- C4, evaluated at the failing input: on an empty working row set dim_date
raises (pd.date_range is called with NaT bounds) instead of yielding an empty
table; on a non-empty set — orders on 2024-01-30 and 2024-02-02, 3 days
apart — it yields (max − min).days + 1 = 4 rows whose date keys are the
gap-free strictly increasing 20240130, 20240131, 20240201, 20240202. -/
theorem dim_date_empty_raises :
    dim_date ([] : List WorkRow) = Except.error "Neither start nor end can be NaT" ∧
    (dim_date [wJan30, wFeb02]).toOption.map (fun rs => rs.map DateRow.date_key) =
      some [20240130, 20240131, 20240201, 20240202] ∧
    (dim_date [wJan30, wFeb02]).toOption.map List.length = some (3 + 1) :=
  ⟨rfl, by decide, by decide⟩

/-- C5 counterexample: two working rows of the one customer C1 that differ in
city give a customer dimension with two rows yet a single distinct
customer_id, refuting exactly-one-row-per-distinct-customer_id. -/
theorem dim_customer_dup_customer_id :
    (dim_customer [wBase, wCity2]).countP
        (fun c => decide (c.customer_id = Val.str "C1")) = 2 ∧
    dropDups ((dim_customer [wBase, wCity2]).map CustRow.customer_id) =
      [Val.str "C1"] ∧
    ¬ (dim_customer [wBase, wCity2]).length = 1 :=
  ⟨by decide, by decide, by decide⟩

/-- C5 amended: the customer dimension deduplicates by full projected row —
its rows are exactly the distinct customer-attribute projections of the
working rows (never a duplicated full row), and its customer_id values are
exactly those present in the working rows: at least one row per distinct
customer_id, possibly several when a customer's attribute tuples differ. -/
theorem dim_customer_dedup_full_row (ws : List WorkRow) :
    (dim_customer ws).Nodup ∧
    (dim_customer ws).toFinset = (ws.map projCust).toFinset ∧
    ((dim_customer ws).map CustRow.customer_id).toFinset =
      (ws.map (fun r => (projCust r).customer_id)).toFinset := by
  refine ⟨nodup_dropDups _, ?_, ?_⟩
  · ext a
    simp [dim_customer, List.mem_toFinset, mem_dropDups]
  · ext a
    simp only [dim_customer, List.mem_toFinset, List.mem_map]
    constructor
    · rintro ⟨c, hc, rfl⟩
      obtain ⟨r, hr, rfl⟩ := List.mem_map.mp ((mem_dropDups _ c).mp hc)
      exact ⟨r, hr, rfl⟩
    · rintro ⟨r, hr, rfl⟩
      exact ⟨projCust r, (mem_dropDups _ _).mpr (List.mem_map.mpr ⟨r, hr, rfl⟩), rfl⟩

/-- C9, evaluated at the failing state: with sa_monthly_sales missing (the
very state the sink writer leaves after skipping an empty table) the export
run raises at that table and exports nothing, instead of skipping it and
exporting the five tables that are present. -/
theorem export_missing_table_errors :
    export_tables dbMissingMonthly =
      Except.error "no such table: sa_monthly_sales" := rfl

/-- C10, evaluated at the failing input: with no source column for
order_date, the order_date column is all null, so the Sanitizer drops every
row; the customer and product dimensions, the fact table and both metric
tables are then empty — but instead of completing with empty tables the run
raises while building the date dimension on the empty working set. -/
theorem missing_critical_column_empties_then_raises :
    sanitize cm_noDate [raw1] = [] ∧
    dim_customer (sanitize cm_noDate [raw1]) = [] ∧
    dim_product (sanitize cm_noDate [raw1]) = [] ∧
    fact_sales (sanitize cm_noDate [raw1]) = [] ∧
    customer_metrics (fact_sales (sanitize cm_noDate [raw1])) = [] ∧
    monthly_sales (fact_sales (sanitize cm_noDate [raw1])) = [] ∧
    dim_date (sanitize cm_noDate [raw1]) =
      Except.error "Neither start nor end can be NaT" :=
  ⟨by decide, by decide, by decide, by decide, by decide, by decide, rfl⟩

/-- C8 counterexample: with a header that has no source column for profit,
the resolved column map marks profit absent, yet profit is in the fact
output column set (keep_existing never removes a column because copy_col
materializes every logical column), and the fact rows carry a null profit —
the column is present and null-filled, not omitted. -/
theorem fact_columns_not_omitted :
    cm_noProfit Logical.profit = none ∧
    keep_existing = keep_cols ∧
    "profit" ∈ keep_existing ∧
    (fact_sales (sanitize cm_noProfit [raw1])).map FactRow.profit = [none] :=
  ⟨by decide, by decide, by decide, by decide⟩

/-- C8 amended: the fact table always carries the full defined fact column
set — keep_existing equals keep_cols for every input, since copy_col creates
every logical column — and a fact field whose source column is absent from
the header is filled with nulls rather than omitted. -/
theorem fact_columns_full_set (cm : ColMap) (rows : List RawRow) :
    keep_existing = keep_cols ∧
    (cm Logical.profit = none →
      ∀ f ∈ fact_sales (sanitize cm rows), f.profit = none) ∧
    (cm Logical.sales = none →
      ∀ f ∈ fact_sales (sanitize cm rows), f.sales_amount = none) := by
  refine ⟨by decide, ?_, ?_⟩
  · intro hnone f hf
    obtain ⟨r, hr, j, hj⟩ := mem_factAux hf
    obtain ⟨raw, _, hraw⟩ := mem_sanitize hr
    subst hj; subst hraw
    simp [mkFact, mkWorkRow, copy_col, hnone, to_numeric]
  · intro hnone f hf
    obtain ⟨r, hr, j, hj⟩ := mem_factAux hf
    obtain ⟨raw, _, hraw⟩ := mem_sanitize hr
    subst hj; subst hraw
    simp [mkFact, mkWorkRow, copy_col, hnone, to_numeric]

/-- Witness for C8 amended at the profit-less header and the scenario row. -/
theorem fact_columns_full_set_witness :
    keep_existing = keep_cols ∧
    (mkFact 1 (mkWorkRow cm_noProfit raw1)).profit = none := by
  have hs : sanitize cm_noProfit [raw1] = [mkWorkRow cm_noProfit raw1] := by decide
  refine ⟨(fact_columns_full_set cm_noProfit [raw1]).1, ?_⟩
  refine (fact_columns_full_set cm_noProfit [raw1]).2.1 (by decide)
    (mkFact 1 (mkWorkRow cm_noProfit raw1)) ?_
  rw [hs]
  simp [fact_sales, factAux]

/-- Score values are always quartile ranks between 1 and 4. -/
theorem score_from_quantiles_bounds (s : List ℚ) :
    ∀ v ∈ score_from_quantiles s, 1 ≤ v ∧ v ≤ 4 := by
  intro v hv
  simp only [score_from_quantiles, List.mem_map] at hv
  obtain ⟨x, _, hx⟩ := hv
  split_ifs at hx <;> omega

/-- C7: score_from_quantiles maps each value of the series to 1 when at or
below the linear-interpolated 25th percentile of that series, 2 when at or
below the 50th, 3 when at or below the 75th, else 4 (so every score is a
quartile rank in 1..4), and the R column is 5 minus the quartile score of the
days_since_last_order series (hence also in 1..4). -/
theorem score_from_quantiles_spec (s : List ℚ) :
    score_from_quantiles s = s.map (fun x =>
      if x ≤ quantileLinear s (1/4) then 1
      else if x ≤ quantileLinear s (1/2) then 2
      else if x ≤ quantileLinear s (3/4) then 3 else 4) ∧
    r_column s = (score_from_quantiles s).map (fun v : ℕ => 5 - (v : ℤ)) ∧
    (∀ v ∈ score_from_quantiles s, 1 ≤ v ∧ v ≤ 4) ∧
    (∀ w ∈ r_column s, 1 ≤ w ∧ w ≤ 4) := by
  refine ⟨rfl, rfl, score_from_quantiles_bounds s, ?_⟩
  intro w hw
  unfold r_column at hw
  obtain ⟨v, hv, hw2⟩ :=
    (List.mem_map (f := fun v : ℕ => 5 - (v : ℤ))).mp hw
  have hb := score_from_quantiles_bounds s v hv
  omega

/-- Witness for C7 on the singleton series. -/
theorem score_from_quantiles_spec_witness :
    1 ∈ score_from_quantiles [(0 : ℚ)] ∧ 1 ≤ 1 ∧ 1 ≤ 4 := by
  have hm : (1 : ℕ) ∈ score_from_quantiles [(0 : ℚ)] := by
    have h : score_from_quantiles [(0 : ℚ)] = [1] := by
      norm_num [score_from_quantiles, quantileLinear]
    rw [h]
    simp
  exact ⟨hm, (score_from_quantiles_spec [(0 : ℚ)]).2.2.1 1 hm⟩

theorem monthlyGo_keys (fs : List FactRow) :
    ∀ (ks : List (ℕ × ℕ)) (acc : ℚ),
      (monthlyGo fs acc ks).map (fun r => (r.year, r.month)) = ks := by
  intro ks
  induction ks with
  | nil => intro acc; rfl
  | cons k ks ih => intro acc; simp [monthlyGo, ih]

theorem monthlyGo_rev (fs : List FactRow) :
    ∀ (ks : List (ℕ × ℕ)) (acc : ℚ),
      (monthlyGo fs acc ks).map MonthlyRow.monthly_revenue =
        ks.map (monthly_revenue_of fs) := by
  intro ks
  induction ks with
  | nil => intro acc; rfl
  | cons k ks ih => intro acc; simp [monthlyGo, ih]

theorem running_sums_cons (x : ℚ) (l : List ℚ) :
    running_sums (x :: l) = x :: (running_sums l).map (fun s => x + s) := by
  simp [running_sums, List.range_succ_eq_map, List.map_map, Function.comp,
    List.take_succ_cons, List.sum_cons]

theorem monthlyGo_cum (fs : List FactRow) :
    ∀ (ks : List (ℕ × ℕ)) (acc : ℚ),
      (monthlyGo fs acc ks).map MonthlyRow.cumulative_revenue =
        (running_sums (ks.map (monthly_revenue_of fs))).map (fun s => acc + s) := by
  intro ks
  induction ks with
  | nil => intro acc; simp [monthlyGo, running_sums]
  | cons k ks ih =>
    intro acc
    simp only [monthlyGo, List.map_cons, running_sums_cons, ih, List.map_map]
    simp [Function.comp, add_assoc]

theorem chain_cum (fs : List FactRow) :
    ∀ (ks : List (ℕ × ℕ)) (acc : ℚ),
      (∀ k ∈ ks, 0 ≤ monthly_revenue_of fs k) →
      List.Chain' (fun a b : ℚ => a ≤ b)
        ((monthlyGo fs acc ks).map MonthlyRow.cumulative_revenue) := by
  intro ks
  induction ks with
  | nil => intro acc _; simp [monthlyGo]
  | cons k ks ih =>
    intro acc h
    cases ks with
    | nil => simp [monthlyGo]
    | cons k2 ks2 =>
      simp only [monthlyGo, List.map_cons]
      rw [List.chain'_cons]
      constructor
      · have h2 : 0 ≤ monthly_revenue_of fs k2 := h k2 (by simp)
        linarith
      · have hrec := ih (acc + monthly_revenue_of fs k)
          (fun k2 hk2 => h k2 (List.mem_cons_of_mem _ hk2))
        simpa [monthlyGo, List.map_cons] using hrec

theorem mem_monthlyGo_of_key (fs : List FactRow) :
    ∀ (ks : List (ℕ × ℕ)) (acc : ℚ) (k : ℕ × ℕ), k ∈ ks →
      ∃ row ∈ monthlyGo fs acc ks,
        row.monthly_revenue = monthly_revenue_of fs k := by
  intro ks
  induction ks with
  | nil => intro acc k hk; simp at hk
  | cons k0 ks ih =>
    intro acc k hk
    rcases List.mem_cons.mp hk with rfl | hk
    · exact ⟨_, List.mem_cons_self _ _, rfl⟩
    · obtain ⟨row, hrow, heq⟩ := ih (acc + monthly_revenue_of fs k0) k hk
      exact ⟨row, List.mem_cons_of_mem _ hrow, heq⟩

/-- C6 counterexample: a fact table with January revenue 100 and February
revenue −50 yields cumulative_revenue [100, 50], which is not
non-decreasing — the unconditional monotonicity part of the claim fails
(nothing stops sales_amount from being negative). -/
theorem monthly_cumulative_not_monotone :
    (monthly_sales exFactsC6).map MonthlyRow.cumulative_revenue = [100, 50] ∧
    ¬ List.Chain' (fun a b : ℚ => a ≤ b)
        ((monthly_sales exFactsC6).map MonthlyRow.cumulative_revenue) := by
  have hkeys : monthly_keys exFactsC6 = [(2024, 1), (2024, 2)] := by decide
  have h1 : monthly_revenue_of exFactsC6 (2024, 1) = 100 := by
    norm_num [monthly_revenue_of, monthGroup, exFactsC6, fact_sales, factAux,
      mkFact, wBase, wFebNeg, monthKey]
  have h2 : monthly_revenue_of exFactsC6 (2024, 2) = -50 := by
    norm_num [monthly_revenue_of, monthGroup, exFactsC6, fact_sales, factAux,
      mkFact, wBase, wFebNeg, monthKey]
  have h : (monthly_sales exFactsC6).map MonthlyRow.cumulative_revenue = [100, 50] := by
    rw [monthly_sales, hkeys]
    simp [monthlyGo, h1, h2]
    norm_num
  refine ⟨h, ?_⟩
  rw [h]
  simp only [List.chain'_cons, List.chain'_singleton, and_true]
  norm_num

/-- C6 amended: the monthly sales table is sorted ascending by (year, month)
and cumulative_revenue is the running sum of monthly_revenue in that order;
the cumulative column is non-decreasing whenever every monthly revenue is
non-negative (with a negative month — possible since sales_amount is not
sign-checked — it can decrease, see the counterexample). -/
theorem monthly_sales_sorted_cumsum (fs : List FactRow) :
    List.Sorted monthLe ((monthly_sales fs).map (fun r => (r.year, r.month))) ∧
    (monthly_sales fs).map MonthlyRow.cumulative_revenue =
      running_sums ((monthly_sales fs).map MonthlyRow.monthly_revenue) ∧
    ((∀ r ∈ monthly_sales fs, 0 ≤ r.monthly_revenue) →
      List.Chain' (fun a b : ℚ => a ≤ b)
        ((monthly_sales fs).map MonthlyRow.cumulative_revenue)) := by
  refine ⟨?_, ?_, ?_⟩
  · rw [monthly_sales, monthlyGo_keys]
    exact List.sorted_insertionSort monthLe _
  · rw [monthly_sales, monthlyGo_cum, monthlyGo_rev]
    simp
  · intro h
    rw [monthly_sales]
    apply chain_cum
    intro k hk
    obtain ⟨row, hrow, heq⟩ := mem_monthlyGo_of_key fs (monthly_keys fs) 0 k hk
    rw [← heq]
    exact h row (by rw [monthly_sales]; exact hrow)

/-- Witness for C6 amended: a one-month fact table with non-negative revenue
has a non-decreasing cumulative column. -/
theorem monthly_sales_sorted_cumsum_witness :
    List.Chain' (fun a b : ℚ => a ≤ b)
      ((monthly_sales (fact_sales [wBase])).map MonthlyRow.cumulative_revenue) := by
  refine (monthly_sales_sorted_cumsum (fact_sales [wBase])).2.2 ?_
  have hkeys : monthly_keys (fact_sales [wBase]) = [(2024, 1)] := by decide
  intro r hr
  rw [monthly_sales, hkeys] at hr
  simp only [monthlyGo, List.mem_singleton] at hr
  subst hr
  norm_num [monthly_revenue_of, monthGroup, fact_sales, factAux, mkFact, wBase,
    monthKey]

end Sales
